import Mathlib

/-!
Shallow embedding of `src/gamev4.py` (Stress Relief Target Game), covering the
simulation core: the kinematic entities, the steering/homing controller, the
collision and scoring engine, the power-up lifecycle and the target evasion
controller, as exercised by `Game.update`, `Game.reset_target`,
`Game.spawn_powerup` and `Game.launch_projectile`.

Modelling conventions:
* Python floats become real numbers (`ℝ`); `math.sqrt`/`math.hypot` become
  `Real.sqrt`.
* The calls to `random.uniform` / `random.randint` are modelled as oracle
  values handed to the step functions (`ResetRand`, `ProjRand`, `TickRand`);
  theorems that depend on the range of a draw take the support of the
  distribution as a hypothesis.
* `time.time()` is modelled as the parameter `now` of the tick; the repeated
  calls to `time.time()` inside one tick (at the power-up pickup) are modelled
  by the same `now`, since the tick is a single instant of simulation time.
* Presentation-only state (images, sounds, trails, fonts, the pygame surface)
  is dropped; the sound-path strings of `Weapon` and the cosmetic fields of
  `Enemy` are kept as plain data so the records mirror the source constructors.
-/

namespace Gamev4

noncomputable section

open scoped Classical

/-- Constant `SCREEN_WIDTH = 1024` of gamev4.py. -/
def SCREEN_WIDTH : ℝ := 1024

/-- Constant `SCREEN_HEIGHT = 768` of gamev4.py. -/
def SCREEN_HEIGHT : ℝ := 768

/-- Constant `TARGET_SIZE = 80` of gamev4.py (unused by the update logic). -/
def TARGET_SIZE : ℝ := 80

/-- Constant `PROJECTILE_SIZE = 40` of gamev4.py: the global ammo hitbox used
by both collision tests in `Game.update`. -/
def PROJECTILE_SIZE : ℝ := 40

/-- Constant `POWERUP_SIZE = 100` of gamev4.py. -/
def POWERUP_SIZE : ℝ := 100

/-- Class `Weapon` of gamev4.py. -/
structure Weapon where
  name : String
  projectile_type : String
  speed : ℝ
  projectile_size : ℝ
  fire_sound_path : String
  hit_sound_path : String
  is_homing : Bool

/-- The list `self.weapons` built in `Game.__init__` (12 entries). -/
def weapons : List Weapon :=
  [⟨"Slingshot", "Vegetables", 15, 30, "fire_slingshot.ogg", "hit_slingshot.ogg", false⟩,
   ⟨"Bottle Rockets", "Rockets", 20, 25, "fire_rocket.ogg", "hit_rocket.ogg", false⟩,
   ⟨"Catapult", "Boulders", 12, 50, "fire_catapult.ogg", "hit_catapult.ogg", false⟩,
   ⟨"Tomato BB Gun", "Tomatoes", 25, 20, "fire_bbgun.ogg", "hit_bbgun.ogg", false⟩,
   ⟨"Poison Bow", "Poison Arrows", 18, 35, "fire_bow.ogg", "hit_bow.ogg", false⟩,
   ⟨"Marshmallow Crossbow", "Flaming Marshmallows", 16, 25, "fire_crossbow.ogg", "hit_crossbow.ogg", false⟩,
   ⟨"Darts", "Darts", 22, 15, "fire_dart.ogg", "hit_dart.ogg", false⟩,
   ⟨"Throwing Stars", "Shuriken", 24, 25, "fire_star.ogg", "hit_star.ogg", false⟩,
   ⟨"Potato Cannon", "Potatoes", 17, 40, "fire_cannon.ogg", "hit_cannon.ogg", false⟩,
   ⟨"Frog Cannon", "Gay Frogs", 17, 45, "fire_frog.ogg", "hit_frog.ogg", false⟩,
   ⟨"Trans Missile", "Guided Missile", 10, 55, "fire_missile.ogg", "hit_missile.ogg", true⟩,
   ⟨"Pride Parade", "Rainbow Seeker", 14, 60, "fire_pride.ogg", "hit_pride.ogg", true⟩]

/-- The indexing `self.weapons[i]` (always used with `i < 12` in the source,
so the default is never reached on the source's own inputs). -/
def weaponAt (i : ℕ) : Weapon :=
  weapons.getD i ⟨"", "", 0, 0, "", "", false⟩

/-- Class `Projectile` of gamev4.py (the cosmetic `trail` list is dropped). -/
structure Projectile where
  x : ℝ
  y : ℝ
  vx : ℝ
  vy : ℝ
  is_homing : Bool
  ammo_index : ℕ
  active : Bool

/-- Class `Target` of gamev4.py. -/
structure Target where
  x : ℝ
  y : ℝ
  vx : ℝ
  vy : ℝ
  size : ℝ
  is_straight : Bool

/-- Class `PowerUp` of gamev4.py. -/
structure PowerUp where
  x : ℝ
  y : ℝ
  vx : ℝ
  size : ℝ
  active : Bool

/-- Class `Enemy` of gamev4.py (the image surface is dropped). -/
structure Enemy where
  name : String
  image_filename : String
  size : ℝ
  speed_multiplier : ℝ
  evasion_pattern : String
  description : String
  font_path : String
  music_track : String

/-- The `enemy_definitions` list of `Game.load_enemies` (8 entries). -/
def enemies : List Enemy :=
  [⟨"Standard", "enemy_standard.png", 80, 1.0, "random", "A classic bullseye.", "font_standard.ttf", "music_standard.ogg"⟩,
   ⟨"Quickster", "enemy_quick.png", 40, 1.8, "bounce", "Small, fast, and erratic.", "font_quick.ttf", "music_quick.ogg"⟩,
   ⟨"Tank", "enemy_tank.png", 120, 0.6, "horizontal", "Large and slow-moving.", "font_tank.ttf", "music_tank.ogg"⟩,
   ⟨"Dodger", "enemy_dodger.png", 60, 1.2, "evade", "Tries to avoid projectiles.", "font_dodger.ttf", "music_dodger.ogg"⟩,
   ⟨"Ghost", "enemy_ghost.png", 70, 1.1, "random", "Fades in and out.", "font_ghost.ttf", "music_ghost.ogg"⟩,
   ⟨"Spinner", "enemy_spinner.png", 50, 1.5, "bounce", "Spins wildly as it moves.", "font_spinner.ttf", "music_spinner.ogg"⟩,
   ⟨"Cloner", "enemy_cloner.png", 90, 0.8, "horizontal", "Splits into smaller clones.", "font_cloner.ttf", "music_cloner.ogg"⟩,
   ⟨"Shadow", "enemy_shadow.png", 60, 1.3, "evade", "Moves in the shadows.", "font_shadow.ttf", "music_shadow.ogg"⟩]

/-- The simulation-relevant fields of class `Game`. -/
structure GameState where
  current_weapon_index : ℕ
  projectiles : List Projectile
  target : Option Target
  powerup : Option PowerUp
  score : ℕ
  powerup_active : Bool
  powerup_end_time : ℝ
  next_powerup_time : ℝ
  weapon_x : ℝ
  selected_enemy : Option Enemy

/-- Oracle for the `random.uniform` draws of `Game.reset_target`:
`px ~ uniform(size, W - size)`, `py ~ uniform(size, H/2 - size)`, and the raw
velocity draws `wx, wy ~ uniform(-4, 4)` (before the speed multiplier). -/
structure ResetRand where
  px : ℝ
  py : ℝ
  wx : ℝ
  wy : ℝ

/-- Oracle for the draws a single projectile's collision handling can consume:
`hit_next ~ uniform(20, 40)` (power-up pickup reschedule), and the scoring
respawn draws `rx ~ uniform(100, W - 100)`, `ry ~ uniform(100, H - 100)`,
`rvx, rvy ~ uniform(-5, 5)`. -/
structure ProjRand where
  hit_next : ℝ
  rx : ℝ
  ry : ℝ
  rvx : ℝ
  rvy : ℝ

/-- Oracle for the draws of one whole tick: the power-up spawn edge
`side ~ randint(0, 3)`, its free coordinate `coord` (uniform along the edge),
the off-screen reschedule draw `miss_next ~ uniform(15, 30)`, and one
`ProjRand` per projectile list position. -/
structure TickRand where
  side : ℕ
  coord : ℝ
  miss_next : ℝ
  proj : ℕ → ProjRand

/-- Method `Game.reset_target` of gamev4.py, as a function of the selected
enemy and the random draws (the source returns early when no enemy is
selected; callers of this definition pass the selected enemy). -/
def reset_target (e : Enemy) (r : ResetRand) : Target :=
  let vx0 := r.wx * e.speed_multiplier
  let vy0 := r.wy * e.speed_multiplier
  let v : ℝ × ℝ :=
    if e.evasion_pattern = "horizontal" then (vx0, 0)
    else if e.evasion_pattern = "vertical" then (0, vy0)
    else (vx0, vy0)
  { x := r.px, y := r.py, vx := v.1, vy := v.2, size := e.size, is_straight := true }

/-- Method `Game.spawn_powerup` of gamev4.py: position just outside the drawn
edge, horizontal drift `vx = (SCREEN_WIDTH / 2 - x) / 100`, size
`POWERUP_SIZE`. -/
def spawn_powerup (r : TickRand) : PowerUp :=
  let pos : ℝ × ℝ :=
    if r.side = 0 then (-POWERUP_SIZE, r.coord)
    else if r.side = 1 then (SCREEN_WIDTH + POWERUP_SIZE, r.coord)
    else if r.side = 2 then (r.coord, -POWERUP_SIZE)
    else (r.coord, SCREEN_HEIGHT + POWERUP_SIZE)
  { x := pos.1, y := pos.2, vx := (SCREEN_WIDTH / 2 - pos.1) / 100,
    size := POWERUP_SIZE, active := true }

/-- First block of `Game.update`: clear `powerup_active` when the effect
expired (`current_time > self.powerup_end_time`, strict). -/
def expiryPhase (now : ℝ) (s : GameState) : GameState :=
  if s.powerup_active ∧ now > s.powerup_end_time then
    { s with powerup_active := false }
  else s

/-- Second block of `Game.update`: spawn a power-up when none exists and
`current_time > self.next_powerup_time` (strict). -/
def spawnPhase (now : ℝ) (r : TickRand) (s : GameState) : GameState :=
  match s.powerup with
  | none =>
      if now > s.next_powerup_time then { s with powerup := some (spawn_powerup r) } else s
  | some _ => s

/-- Third block of `Game.update`: move the power-up by its horizontal
velocity; discard it and reschedule (`uniform(15, 30)` delay) once it is more
than `POWERUP_SIZE * 2` beyond a horizontal screen boundary. -/
def powerupMovePhase (now : ℝ) (r : TickRand) (s : GameState) : GameState :=
  match s.powerup with
  | none => s
  | some pu =>
      let pu1 : PowerUp := { pu with x := pu.x + pu.vx }
      if pu1.x < -POWERUP_SIZE * 2 ∨ pu1.x > SCREEN_WIDTH + POWERUP_SIZE * 2 then
        { s with powerup := none, next_powerup_time := now + r.miss_next }
      else
        { s with powerup := some pu1 }

/-- One iteration of the evasion loop of `Game.update`: nudge the target away
from a projectile closer than 150 units by 2% of the separation vector. -/
def evadeNudge (t : Target) (p : Projectile) : Target :=
  if Real.sqrt ((t.x - p.x) * (t.x - p.x) + (t.y - p.y) * (t.y - p.y)) < 150 then
    { t with x := t.x + (t.x - p.x) * 0.02, y := t.y + (t.y - p.y) * 0.02 }
  else t

/-- Integration and wall bounce of the target in `Game.update`: add the
velocity, then on each axis independently negate the velocity and clamp the
position whenever the bounding circle crosses that axis's play-field edge. -/
def targetPhysics (t : Target) : Target :=
  let t1 : Target := { t with x := t.x + t.vx, y := t.y + t.vy }
  let t2 : Target :=
    if t1.x - t1.size < 0 ∨ t1.x + t1.size > SCREEN_WIDTH then
      { t1 with vx := -t1.vx, x := max t1.size (min (SCREEN_WIDTH - t1.size) t1.x) }
    else t1
  if t2.y - t2.size < 0 ∨ t2.y + t2.size > SCREEN_HEIGHT then
    { t2 with vy := -t2.vy, y := max t2.size (min (SCREEN_HEIGHT - t2.size) t2.y) }
  else t2

/-- Fourth block of `Game.update` (the `if self.target:` block): evasion
nudges (only for the `evade` pattern, folded over the projectile list still
holding last tick's deactivated projectiles), then integration and bounce. -/
def targetMovePhase (s : GameState) : GameState :=
  match s.target with
  | none => s
  | some t =>
      let t1 :=
        match s.selected_enemy with
        | some e =>
            if e.evasion_pattern = "evade" then s.projectiles.foldl evadeNudge t else t
        | none => t
      { s with target := some (targetPhysics t1) }

/-- The heat-seeking block of the projectile loop in `Game.update`: when the
projectile is homing or the power-up effect is active, and the target is
straight, and the distance to the target is positive, blend the velocity
toward the target direction.  The speed is read from
`self.weapons[self.current_weapon_index]` — the weapon currently selected,
not the weapon the projectile was fired from. -/
def steerProj (s : GameState) (p : Projectile) : Projectile :=
  match s.target with
  | none => p
  | some t =>
      if (p.is_homing || s.powerup_active) && t.is_straight then
        let dx := t.x - p.x
        let dy := t.y - p.y
        let distance := Real.sqrt (dx * dx + dy * dy)
        if distance > 0 then
          let turn_rate : ℝ := if s.powerup_active then 0.5 else 0.3
          let speed0 := (weaponAt s.current_weapon_index).speed
          let speed := if s.powerup_active then speed0 * 1.5 else speed0
          { p with vx := p.vx + (dx / distance * speed - p.vx) * turn_rate,
                   vy := p.vy + (dy / distance * speed - p.vy) * turn_rate }
        else p
      else p

/-- The `# Move projectile` lines of the projectile loop. -/
def moveProj (p : Projectile) : Projectile :=
  { p with x := p.x + p.vx, y := p.y + p.vy }

/-- The `# Deactivate if out of bounds` lines of the projectile loop: set
`active := false` when x or y leaves `[0, SCREEN_WIDTH] / [0, SCREEN_HEIGHT]`.
No `continue` follows in the source: the collision tests below still run. -/
def boundsDeactivate (p : Projectile) : Projectile :=
  if p.x < 0 ∨ p.x > SCREEN_WIDTH ∨ p.y < 0 ∨ p.y > SCREEN_HEIGHT then
    { p with active := false }
  else p

/-- The power-up collision block of the projectile loop: on a hit
(distance strictly below `size/2 + PROJECTILE_SIZE/2`) deactivate the
projectile, consume the power-up, activate the effect until `now + 10` and
reschedule the next spawn by the `uniform(20, 40)` draw. -/
def powerupCollide (now : ℝ) (r : ProjRand) (s : GameState) (p : Projectile) :
    GameState × Projectile :=
  match s.powerup with
  | none => (s, p)
  | some pu =>
      let dx := p.x - pu.x
      let dy := p.y - pu.y
      if Real.sqrt (dx * dx + dy * dy) < pu.size / 2 + PROJECTILE_SIZE / 2 then
        ({ s with powerup := none, powerup_active := true,
                  powerup_end_time := now + 10,
                  next_powerup_time := now + r.hit_next },
         { p with active := false })
      else (s, p)

/-- The target collision block of the projectile loop: on a hit (distance
strictly below `target.size + PROJECTILE_SIZE / 2`) deactivate the
projectile, add 3 points when the effect is active and 1 otherwise, and
respawn the target in place with the `uniform(100, W-100) × uniform(100,
H-100)` position draws and `uniform(-5, 5)` velocity draws. -/
def targetCollide (r : ProjRand) (s : GameState) (p : Projectile) :
    GameState × Projectile :=
  match s.target with
  | none => (s, p)
  | some t =>
      let dx := p.x - t.x
      let dy := p.y - t.y
      if Real.sqrt (dx * dx + dy * dy) < t.size + PROJECTILE_SIZE / 2 then
        ({ s with score := s.score + (if s.powerup_active then 3 else 1),
                  target := some { t with x := r.rx, y := r.ry, vx := r.rvx, vy := r.rvy,
                                          is_straight := true } },
         { p with active := false })
      else (s, p)

/-- One full iteration of the projectile loop of `Game.update`: steering,
motion, out-of-bounds deactivation, power-up collision, target collision — in
source order, with no early exit between the stages. -/
def stepProj (now : ℝ) (r : ProjRand) (s : GameState) (p : Projectile) :
    GameState × Projectile :=
  let p1 := boundsDeactivate (moveProj (steerProj s p))
  let sp := powerupCollide now r s p1
  targetCollide r sp.1 sp.2

/-- The projectile loop folded over the list, threading the mutable `Game`
state; the draw oracle is indexed by list position. -/
def runProjAux (now : ℝ) (rs : ℕ → ProjRand) :
    ℕ → GameState → List Projectile → GameState × List Projectile
  | _, s, [] => (s, [])
  | i, s, p :: ps =>
      let sp := stepProj now (rs i) s p
      let rest := runProjAux now rs (i + 1) sp.1 ps
      (rest.1, sp.2 :: rest.2)

/-- Fifth block of `Game.update`: compact out the projectiles deactivated on
earlier ticks (`self.projectiles = [p for p in self.projectiles if p.active]`),
then run the loop body over the survivors. -/
def projectilePhase (now : ℝ) (r : TickRand) (s : GameState) : GameState :=
  let live := s.projectiles.filter (fun p => p.active)
  let out := runProjAux now r.proj 0 s live
  { out.1 with projectiles := out.2 }

/-- Method `Game.update` of gamev4.py: the five blocks in source order. -/
def update (now : ℝ) (r : TickRand) (s : GameState) : GameState :=
  projectilePhase now r (targetMovePhase (powerupMovePhase now r (spawnPhase now r (expiryPhase now s))))

/-- Method `Game.launch_projectile` of gamev4.py: from
`(weapon_x, SCREEN_HEIGHT - 130)`, aim at `(target_x, target_y)`; when the
distance is positive, append one projectile at the launch point with velocity
of magnitude `speed` along the aim direction, carrying the selected weapon's
homing flag and index; otherwise leave the state unchanged. -/
def launch_projectile (s : GameState) (target_x target_y : ℝ) : GameState :=
  let start_x := s.weapon_x
  let start_y := SCREEN_HEIGHT - 130
  let dx := target_x - start_x
  let dy := target_y - start_y
  let distance := Real.sqrt (dx * dx + dy * dy)
  if distance > 0 then
    let w := weaponAt s.current_weapon_index
    { s with projectiles := s.projectiles ++
        [{ x := start_x, y := start_y, vx := dx / distance * w.speed,
           vy := dy / distance * w.speed, is_homing := w.is_homing,
           ammo_index := s.current_weapon_index, active := true }] }
  else s

/-- The first-ever power-up schedule, set in `Game.__init__`:
`time.time() + random.uniform(15, 30)`. -/
def init_next_powerup_time (t0 u : ℝ) : ℝ := t0 + u

/-- The target's bounding circle lies inside the play field
`[0, SCREEN_WIDTH] × [0, SCREEN_HEIGHT]`. -/
def Target.inBounds (t : Target) : Prop :=
  0 ≤ t.x - t.size ∧ t.x + t.size ≤ SCREEN_WIDTH ∧
  0 ≤ t.y - t.size ∧ t.y + t.size ≤ SCREEN_HEIGHT

/-- A projectile position outside `[0, SCREEN_WIDTH] × [0, SCREEN_HEIGHT]`,
exactly the condition of the out-of-bounds check in the projectile loop. -/
def Projectile.oob (p : Projectile) : Prop :=
  p.x < 0 ∨ p.x > SCREEN_WIDTH ∨ p.y < 0 ∨ p.y > SCREEN_HEIGHT

/-- Concrete target used to witness the wall-reflection theorem: a Standard
target about to cross the right edge. -/
def tC7 : Target := ⟨1000, 300, 30, 5, 80, true⟩

/-- The Standard enemy (entry 0 of `enemies`). -/
def enemyStandard : Enemy :=
  ⟨"Standard", "enemy_standard.png", 80, 1.0, "random", "A classic bullseye.",
   "font_standard.ttf", "music_standard.ogg"⟩

/-- The Tank enemy (entry 2 of `enemies`): size 120, pattern `horizontal`. -/
def enemyTank : Enemy :=
  ⟨"Tank", "enemy_tank.png", 120, 0.6, "horizontal", "Large and slow-moving.",
   "font_tank.ttf", "music_tank.ogg"⟩

/-- A stationary Standard target at `(900, 300)`. -/
def tBase : Target := ⟨900, 300, 0, 0, 80, true⟩

/-- A play-session state template: Standard target selected, no power-up in
flight, no effect active, next power-up spawn far in the future. -/
def baseState : GameState :=
  { current_weapon_index := 0, projectiles := [],
    target := some tBase, powerup := none, score := 0,
    powerup_active := false, powerup_end_time := 0, next_powerup_time := 1000,
    weapon_x := 512, selected_enemy := some enemyStandard }

/-- Target sitting exactly on the launch point, for the zero-distance
witness. -/
def tC9 : Target := ⟨512, 638, 0, 0, 80, true⟩

/-- Homing projectile sitting exactly on the target's center, for the
zero-distance witness. -/
def pC9 : Projectile := ⟨512, 638, 2, 3, true, 10, true⟩

/-- State for the zero-distance witness: the target coincides with both the
projectile and the launch point. -/
def sC9 : GameState := { baseState with target := some tC9 }

/-- Power-up in flight at `(500, 250)`, about to be picked up. -/
def puC6 : PowerUp := ⟨500, 250, 0, 100, true⟩

/-- Stationary projectile at `(500, 300)`: 50 units from `puC6`, 400 units
from the `baseState` target. -/
def pC6 : Projectile := ⟨500, 300, 0, 0, false, 0, true⟩

/-- State in which the tick at time 0 picks up the power-up. -/
def sC6 : GameState := { baseState with powerup := some puC6, projectiles := [pC6] }

/-- Fixed draw oracle for the power-up window scenario (`hit_next = 25`). -/
def rC6 : TickRand := ⟨0, 0, 17, fun _ => ⟨25, 500, 400, 0, 0⟩⟩

/-- A state carrying an effect activated at time 0 (expiry stamp 10). -/
def s2C6 : GameState := { baseState with powerup_active := true, powerup_end_time := 10 }

/-- Desired velocity of the spec's steering algorithm: the unit vector toward
the target scaled by the effective speed. -/
def desired_velocity (speed dx dy : ℝ) : ℝ × ℝ :=
  (dx / Real.sqrt (dx * dx + dy * dy) * speed,
   dy / Real.sqrt (dx * dx + dy * dy) * speed)

/-- Velocity blend moving `(vx, vy)` toward `(tvx, tvy)` by the turn-rate
fraction `turn`. -/
def blendVelocity (vx vy tvx tvy turn : ℝ) : ℝ × ℝ :=
  (vx + (tvx - vx) * turn, vy + (tvy - vy) * turn)

/-- Target 5 units from the origin along a 3-4-5 triangle. -/
def tC2 : Target := ⟨3, 4, 0, 0, 80, true⟩

/-- Trans Missile projectile (homing, `ammo_index = 10`) at the origin. -/
def pC2 : Projectile := ⟨0, 0, 0, 0, true, 10, true⟩

/-- State steering `pC2` while the Slingshot (index 0) is selected. -/
def sC2 : GameState := { baseState with target := some tC2 }

/-- Darts projectile (`ammo_index = 6`, weapon hit size 15) resting 95 units
left of the `tBase` target center. -/
def pC3 : Projectile := ⟨805, 300, 0, 0, false, 6, true⟩

/-- State for the target-collision radius counterexample. -/
def sC3 : GameState := { baseState with projectiles := [pC3] }

/-- The support of the scoring-respawn position draws of the source
(`random.uniform(100, SCREEN_WIDTH - 100)` / `random.uniform(100,
SCREEN_HEIGHT - 100)`). -/
def ProjRand.respawnInRange (r : ProjRand) : Prop :=
  100 ≤ r.rx ∧ r.rx ≤ SCREEN_WIDTH - 100 ∧ 100 ≤ r.ry ∧ r.ry ≤ SCREEN_HEIGHT - 100

/-- Target near the top edge, for the out-of-bounds witness. -/
def tW1 : Target := ⟨500, 90, 0, 0, 80, true⟩

/-- Projectile that leaves the top edge this tick, 95 units from `tW1`. -/
def pW1 : Projectile := ⟨500, 15, 0, -20, false, 0, true⟩

/-- State for the out-of-bounds witness (no power-up in flight). -/
def sW1 : GameState := { baseState with target := some tW1 }

/-- Target hugging the right wall (center 944, radius 80). -/
def tD1 : Target := ⟨944, 300, 0, 0, 80, true⟩

/-- Power-up drifting left at `(1075, 300)`. -/
def puD1 : PowerUp := ⟨1075, 300, -6, 100, true⟩

/-- Projectile crossing the right edge this tick: it ends at `(1025, 300)` —
out of bounds, 50 units from `puD1` and 81 units from `tD1`. -/
def pD1 : Projectile := ⟨1015, 300, 10, 0, false, 0, true⟩

/-- State for the double-event counterexample. -/
def sD1 : GameState :=
  { baseState with target := some tD1, powerup := some puD1, projectiles := [pD1] }

/-- A Tank target (radius 120) well inside the play field. -/
def tD4 : Target := ⟨500, 400, 0, 0, 120, true⟩

/-- Stationary projectile 100 units below the Tank target's center. -/
def pD4 : Projectile := ⟨500, 300, 0, 0, false, 0, true⟩

/-- Tank session state about to score a hit. -/
def sD4 : GameState :=
  { baseState with target := some tD4, selected_enemy := some enemyTank,
                   projectiles := [pD4] }

/-- Draw oracle whose scoring respawn lands at `x = 100` (inside the draw
support `[100, 924]`) with vertical velocity draw 3. -/
def rD4 : TickRand := ⟨0, 0, 17, fun _ => ⟨25, 100, 400, 0, 3⟩⟩

/-- Reset draws for the axis-lock witness. -/
def rrC5 : ResetRand := ⟨500, 200, 2, 3⟩

end

section Helpers

/-- Distance comparison against a positive bound, squared: the form the
collision tests take once `Real.sqrt` is eliminated. -/
theorem dist_lt_iff {dx dy R : ℝ} (hR : 0 < R) :
    Real.sqrt (dx * dx + dy * dy) < R ↔ dx * dx + dy * dy < R * R := by
  rw [Real.sqrt_lt' hR, sq]

/-- Positivity of the distance used by the steering guard. -/
theorem dist_pos_iff {dx dy : ℝ} :
    Real.sqrt (dx * dx + dy * dy) > 0 ↔ dx * dx + dy * dy > 0 :=
  Real.sqrt_pos

/-- Evaluation of a concrete square root. -/
theorem sqrt_eval {a b : ℝ} (hb : 0 ≤ b) (h : b * b = a) : Real.sqrt a = b := by
  rw [← h]; exact Real.sqrt_mul_self hb

end Helpers

/-- C7: if the tick's integration step puts the target's bounding circle
outside the play field on the x axis only, the post-tick x-velocity is the
exact negation of the pre-tick one, the x-position is the integrated position
clamped into `[size, SCREEN_WIDTH - size]`, and position and velocity on the
y axis are exactly what plain integration gives; symmetrically with the axes
swapped. -/
theorem wall_reflection (t : Target)
    (hW : t.size ≤ SCREEN_WIDTH - t.size) (hH : t.size ≤ SCREEN_HEIGHT - t.size) :
    ((t.x + t.vx - t.size < 0 ∨ t.x + t.vx + t.size > SCREEN_WIDTH) →
      ¬(t.y + t.vy - t.size < 0 ∨ t.y + t.vy + t.size > SCREEN_HEIGHT) →
      (targetPhysics t).vx = -t.vx ∧
      (targetPhysics t).x = max t.size (min (SCREEN_WIDTH - t.size) (t.x + t.vx)) ∧
      t.size ≤ (targetPhysics t).x ∧ (targetPhysics t).x ≤ SCREEN_WIDTH - t.size ∧
      (targetPhysics t).y = t.y + t.vy ∧ (targetPhysics t).vy = t.vy) ∧
    ((t.y + t.vy - t.size < 0 ∨ t.y + t.vy + t.size > SCREEN_HEIGHT) →
      ¬(t.x + t.vx - t.size < 0 ∨ t.x + t.vx + t.size > SCREEN_WIDTH) →
      (targetPhysics t).vy = -t.vy ∧
      (targetPhysics t).y = max t.size (min (SCREEN_HEIGHT - t.size) (t.y + t.vy)) ∧
      t.size ≤ (targetPhysics t).y ∧ (targetPhysics t).y ≤ SCREEN_HEIGHT - t.size ∧
      (targetPhysics t).x = t.x + t.vx ∧ (targetPhysics t).vx = t.vx) := by
  constructor
  · intro hx hy
    have e : targetPhysics t =
        { t with x := max t.size (min (SCREEN_WIDTH - t.size) (t.x + t.vx)),
                 y := t.y + t.vy, vx := -t.vx } := by
      simp only [targetPhysics]
      rw [if_pos hx, if_neg hy]
    rw [e]
    refine ⟨rfl, rfl, le_max_left _ _, max_le hW (min_le_left _ _), rfl, rfl⟩
  · intro hy hx
    have e : targetPhysics t =
        { t with x := t.x + t.vx,
                 y := max t.size (min (SCREEN_HEIGHT - t.size) (t.y + t.vy)), vy := -t.vy } := by
      simp only [targetPhysics]
      rw [if_neg hx, if_pos hy]
    rw [e]
    refine ⟨rfl, rfl, le_max_left _ _, max_le hH (min_le_left _ _), rfl, rfl⟩

/-- Witness for C7 at the concrete target `tC7` (x-axis crossing). -/
theorem wall_reflection_witness :
    (targetPhysics tC7).vx = -tC7.vx ∧
    (targetPhysics tC7).x = max tC7.size (min (SCREEN_WIDTH - tC7.size) (tC7.x + tC7.vx)) ∧
    tC7.size ≤ (targetPhysics tC7).x ∧ (targetPhysics tC7).x ≤ SCREEN_WIDTH - tC7.size ∧
    (targetPhysics tC7).y = tC7.y + tC7.vy ∧ (targetPhysics tC7).vy = tC7.vy :=
  (wall_reflection tC7
      (by norm_num [tC7, SCREEN_WIDTH]) (by norm_num [tC7, SCREEN_HEIGHT])).1
    (by norm_num [tC7, SCREEN_WIDTH]) (by norm_num [tC7, SCREEN_HEIGHT])

/-- C9: neither steering nor launch aiming divides by zero: with the target
exactly at the projectile's position the steering block leaves the velocity
(indeed the whole projectile) unchanged, and with the aim point exactly at
the launch origin no projectile is created and the state is unchanged. -/
theorem zero_distance_guards (s : GameState) (p : Projectile) (t : Target) (tx ty : ℝ)
    (ht : s.target = some t) (hx : t.x = p.x) (hy : t.y = p.y)
    (hax : tx = s.weapon_x) (hay : ty = SCREEN_HEIGHT - 130) :
    steerProj s p = p ∧ launch_projectile s tx ty = s := by
  constructor
  · simp [steerProj, ht, hx, hy]
  · simp [launch_projectile, hax, hay]

/-- Witness for C9 at the concrete state `sC9`. -/
theorem zero_distance_guards_witness :
    steerProj sC9 pC9 = pC9 ∧ launch_projectile sC9 512 638 = sC9 :=
  zero_distance_guards sC9 pC9 tC9 512 638 rfl (by norm_num [tC9, pC9])
    (by norm_num [tC9, pC9]) (by norm_num [sC9, baseState])
    (by norm_num [SCREEN_HEIGHT])

/-- C10: a launch whose release point differs from the launch origin appends
exactly one projectile to the list; it starts at `(weapon_x, SCREEN_HEIGHT -
130)`, its velocity has magnitude exactly the selected weapon's speed and
points from the start toward the release point, and it carries the selected
weapon's homing flag and index. -/
theorem launch_appends_projectile (s : GameState) (tx ty : ℝ)
    (hne : (tx, ty) ≠ (s.weapon_x, SCREEN_HEIGHT - 130))
    (hsp : 0 < (weaponAt s.current_weapon_index).speed) :
    ∃ q : Projectile,
      (launch_projectile s tx ty).projectiles = s.projectiles ++ [q] ∧
      q.x = s.weapon_x ∧ q.y = SCREEN_HEIGHT - 130 ∧
      Real.sqrt (q.vx * q.vx + q.vy * q.vy) = (weaponAt s.current_weapon_index).speed ∧
      (∃ c : ℝ, 0 < c ∧ q.vx = c * (tx - s.weapon_x) ∧
        q.vy = c * (ty - (SCREEN_HEIGHT - 130))) ∧
      q.is_homing = (weaponAt s.current_weapon_index).is_homing ∧
      q.ammo_index = s.current_weapon_index := by
  set dx := tx - s.weapon_x with hdx
  set dy := ty - (SCREEN_HEIGHT - 130) with hdy
  have hne' : dx ≠ 0 ∨ dy ≠ 0 := by
    by_contra hcon
    push_neg at hcon
    apply hne
    simp only [Prod.mk.injEq]
    exact ⟨sub_eq_zero.1 hcon.1, sub_eq_zero.1 hcon.2⟩
  have hd2 : 0 < dx * dx + dy * dy := by
    rcases hne' with h | h
    · nlinarith [mul_self_pos.2 h, mul_self_nonneg dy]
    · nlinarith [mul_self_pos.2 h, mul_self_nonneg dx]
  have hdpos : 0 < Real.sqrt (dx * dx + dy * dy) := Real.sqrt_pos.2 hd2
  have hdd : Real.sqrt (dx * dx + dy * dy) * Real.sqrt (dx * dx + dy * dy)
      = dx * dx + dy * dy := Real.mul_self_sqrt hd2.le
  set d := Real.sqrt (dx * dx + dy * dy) with hd
  set sp := (weaponAt s.current_weapon_index).speed with hsp'
  have hdne : d ≠ 0 := ne_of_gt hdpos
  refine ⟨{ x := s.weapon_x, y := SCREEN_HEIGHT - 130,
            vx := dx / d * sp, vy := dy / d * sp,
            is_homing := (weaponAt s.current_weapon_index).is_homing,
            ammo_index := s.current_weapon_index, active := true },
    ?_, rfl, rfl, ?_, ⟨sp / d, div_pos hsp hdpos, by ring, by ring⟩, rfl, rfl⟩
  · simp only [launch_projectile]
    rw [if_pos hdpos]
  · have key : dx / d * sp * (dx / d * sp) + dy / d * sp * (dy / d * sp) = sp * sp := by
      field_simp
      nlinarith [hdd]
    rw [key]
    exact Real.sqrt_mul_self hsp.le

/-- Witness for C10: Slingshot launch from `x = 512` released at `(515, 642)`
(a 3-4-5 aim vector). -/
theorem launch_appends_projectile_witness :
    ∃ q : Projectile,
      (launch_projectile baseState 515 642).projectiles = baseState.projectiles ++ [q] ∧
      q.x = baseState.weapon_x ∧ q.y = SCREEN_HEIGHT - 130 ∧
      Real.sqrt (q.vx * q.vx + q.vy * q.vy)
        = (weaponAt baseState.current_weapon_index).speed ∧
      (∃ c : ℝ, 0 < c ∧ q.vx = c * (515 - baseState.weapon_x) ∧
        q.vy = c * (642 - (SCREEN_HEIGHT - 130))) ∧
      q.is_homing = (weaponAt baseState.current_weapon_index).is_homing ∧
      q.ammo_index = baseState.current_weapon_index :=
  launch_appends_projectile baseState 515 642
    (by norm_num [baseState, SCREEN_HEIGHT, Prod.ext_iff])
    (by norm_num [baseState, weaponAt, weapons])

/-- C6 (amended): a power-up pickup at time `T` sets the effect flag and the
expiry stamp `T + 10`; the expiry check of a tick at time `t` then leaves the
flag set exactly when `t ≤ T + 10` — the active window is the closed interval
`[T, T + 10]`, and the flag is cleared only at ticks with time strictly
greater than `T + 10` (the source compares with strict `>`). -/
theorem powerup_window (s : GameState) (p : Projectile) (pu : PowerUp) (T : ℝ)
    (r : ProjRand) (s2 : GameState) (t : ℝ)
    (hpu : s.powerup = some pu)
    (hhit : Real.sqrt ((p.x - pu.x) * (p.x - pu.x) + (p.y - pu.y) * (p.y - pu.y))
      < pu.size / 2 + PROJECTILE_SIZE / 2)
    (hact : s2.powerup_active = true) (hend : s2.powerup_end_time = T + 10) :
    (powerupCollide T r s p).1.powerup_active = true ∧
    (powerupCollide T r s p).1.powerup_end_time = T + 10 ∧
    ((expiryPhase t s2).powerup_active = true ↔ t ≤ T + 10) := by
  have e : powerupCollide T r s p =
      ({ s with powerup := none, powerup_active := true,
                powerup_end_time := T + 10, next_powerup_time := T + r.hit_next },
       { p with active := false }) := by
    simp only [powerupCollide, hpu]
    rw [if_pos hhit]
  refine ⟨by rw [e], by rw [e], ?_⟩
  constructor
  · intro hA
    by_contra hgt
    push_neg at hgt
    have hfalse : (expiryPhase t s2).powerup_active = false := by
      simp only [expiryPhase]
      rw [if_pos ⟨hact, by rw [hend]; exact hgt⟩]
    rw [hfalse] at hA
    exact Bool.false_ne_true hA
  · intro hle
    simp only [expiryPhase]
    rw [if_neg]
    · exact hact
    · rintro ⟨-, hgt⟩
      rw [hend] at hgt
      exact absurd hgt (not_lt.2 hle)

/-- Witness for C6 at the pickup of `puC6` by `pC6` at time 0, checked at a
tick at time 3. -/
theorem powerup_window_witness :
    (powerupCollide 0 (rC6.proj 0) sC6 pC6).1.powerup_active = true ∧
    (powerupCollide 0 (rC6.proj 0) sC6 pC6).1.powerup_end_time = (0:ℝ) + 10 ∧
    ((expiryPhase 3 s2C6).powerup_active = true ↔ (3:ℝ) ≤ 0 + 10) :=
  powerup_window sC6 pC6 puC6 0 (rC6.proj 0) s2C6 3 rfl
    (by
      rw [show (pC6.x - puC6.x) * (pC6.x - puC6.x) + (pC6.y - puC6.y) * (pC6.y - puC6.y)
            = (2500:ℝ) by norm_num [pC6, puC6]]
      rw [sqrt_eval (show (0:ℝ) ≤ 50 by norm_num) (show (50:ℝ) * 50 = 2500 by norm_num)]
      norm_num [puC6, PROJECTILE_SIZE])
    rfl (by norm_num [s2C6, baseState])

/-- C6 counterexample: with the effect activated at time `T = 0` by the tick
at time 0 (expiry stamp 10), the tick at time exactly `T + 10 = 10` still has
`powerup_active = true`, where the claim requires it to be false at `T + 10`. -/
theorem powerup_window_cex :
    (update 0 rC6 sC6).powerup_active = true ∧
    (update 0 rC6 sC6).powerup_end_time = 10 ∧
    (update 10 rC6 (update 0 rC6 sC6)).powerup_active = true := by
  have hs50 : Real.sqrt (2500:ℝ) = 50 := sqrt_eval (by norm_num) (by norm_num)
  have hs400 : Real.sqrt (160000:ℝ) = 400 := sqrt_eval (by norm_num) (by norm_num)
  have hre : ("random" = "evade") = False := eq_false (by decide)
  have e1 : update 0 rC6 sC6 =
      { current_weapon_index := 0,
        projectiles := [⟨500, 300, 0, 0, false, 0, false⟩],
        target := some tBase, powerup := none, score := 0,
        powerup_active := true, powerup_end_time := 10, next_powerup_time := 25,
        weapon_x := 512, selected_enemy := some enemyStandard } := by
    norm_num [update, expiryPhase, spawnPhase, powerupMovePhase, targetMovePhase,
      targetPhysics, projectilePhase, runProjAux, stepProj, steerProj, moveProj,
      boundsDeactivate, powerupCollide, targetCollide, sC6, baseState, tBase, puC6,
      pC6, rC6, enemyStandard, SCREEN_WIDTH, SCREEN_HEIGHT, POWERUP_SIZE,
      PROJECTILE_SIZE, hs50, hs400, hre, List.filter]
  refine ⟨by rw [e1], by rw [e1], ?_⟩
  rw [e1]
  norm_num [update, expiryPhase, spawnPhase, powerupMovePhase, targetMovePhase,
    targetPhysics, projectilePhase, runProjAux, stepProj, steerProj, moveProj,
    boundsDeactivate, powerupCollide, targetCollide, enemyStandard, tBase,
    SCREEN_WIDTH, SCREEN_HEIGHT, POWERUP_SIZE, PROJECTILE_SIZE, hre, List.filter]

/-- C8: a power-up is created only when none exists and the time exceeds the
schedule; it spawns just outside the drawn edge with `vx = (center_x - x) /
100` and no vertical motion; it is removed exactly when its position passes
`2 × POWERUP_SIZE` beyond a horizontal boundary, rescheduling to `now +
uniform(15, 30)`; the first-ever schedule uses the same range. -/
theorem powerup_lifecycle (now : ℝ) (r : TickRand) (s : GameState) (t0 u : ℝ)
    (hu : 15 ≤ u ∧ u < 30) (hm : 15 ≤ r.miss_next ∧ r.miss_next < 30) :
    (¬(s.powerup = none ∧ now > s.next_powerup_time) → spawnPhase now r s = s) ∧
    (s.powerup = none → now > s.next_powerup_time →
      (spawnPhase now r s).powerup = some (spawn_powerup r) ∧
      (spawn_powerup r).vx = (SCREEN_WIDTH / 2 - (spawn_powerup r).x) / 100 ∧
      (r.side = 0 → (spawn_powerup r).x = -POWERUP_SIZE) ∧
      (r.side = 1 → (spawn_powerup r).x = SCREEN_WIDTH + POWERUP_SIZE) ∧
      (r.side = 2 → (spawn_powerup r).y = -POWERUP_SIZE) ∧
      (r.side ≠ 0 → r.side ≠ 1 → r.side ≠ 2 →
        (spawn_powerup r).y = SCREEN_HEIGHT + POWERUP_SIZE)) ∧
    (∀ pu : PowerUp, s.powerup = some pu →
      ((pu.x + pu.vx < -POWERUP_SIZE * 2 ∨ pu.x + pu.vx > SCREEN_WIDTH + POWERUP_SIZE * 2) →
        (powerupMovePhase now r s).powerup = none ∧
        (powerupMovePhase now r s).next_powerup_time = now + r.miss_next ∧
        now + 15 ≤ (powerupMovePhase now r s).next_powerup_time ∧
        (powerupMovePhase now r s).next_powerup_time < now + 30) ∧
      (¬(pu.x + pu.vx < -POWERUP_SIZE * 2 ∨ pu.x + pu.vx > SCREEN_WIDTH + POWERUP_SIZE * 2) →
        (powerupMovePhase now r s).powerup = some { pu with x := pu.x + pu.vx } ∧
        (powerupMovePhase now r s).next_powerup_time = s.next_powerup_time)) ∧
    (init_next_powerup_time t0 u = t0 + u ∧
      t0 + 15 ≤ init_next_powerup_time t0 u ∧ init_next_powerup_time t0 u < t0 + 30) := by
  refine ⟨?_, ?_, ?_, ?_⟩
  · intro h
    cases hs : s.powerup with
    | none =>
        have hngt : ¬ now > s.next_powerup_time := fun hgt => h ⟨hs, hgt⟩
        simp [spawnPhase, hs, hngt]
    | some pu => simp [spawnPhase, hs]
  · intro hnone hgt
    refine ⟨by simp [spawnPhase, hnone, hgt], rfl, ?_, ?_, ?_, ?_⟩
    · intro h0; simp [spawn_powerup, h0]
    · intro h1; simp [spawn_powerup, h1]
    · intro h2; simp [spawn_powerup, h2]
    · intro h0 h1 h2; simp [spawn_powerup, h0, h1, h2]
  · intro pu hpu
    constructor
    · intro hout
      have e : powerupMovePhase now r s =
          { s with powerup := none, next_powerup_time := now + r.miss_next } := by
        simp only [powerupMovePhase, hpu]
        rw [if_pos hout]
      refine ⟨by rw [e], by rw [e], ?_, ?_⟩
      · rw [e]; show now + 15 ≤ now + r.miss_next; linarith [hm.1]
      · rw [e]; show now + r.miss_next < now + 30; linarith [hm.2]
    · intro hin
      have e : powerupMovePhase now r s =
          { s with powerup := some { pu with x := pu.x + pu.vx } } := by
        simp only [powerupMovePhase, hpu]
        rw [if_neg hin]
      exact ⟨by rw [e], by rw [e]⟩
  · exact ⟨rfl, by simp only [init_next_powerup_time]; linarith [hu.1],
      by simp only [init_next_powerup_time]; linarith [hu.2]⟩

/-- Witness for C8 with the power-up `puC6` in flight, `miss_next = 17`,
first-ever draw `u = 20` at `t0 = 5`. -/
theorem powerup_lifecycle_witness :
    (¬(sC6.powerup = none ∧ (0:ℝ) > sC6.next_powerup_time) → spawnPhase 0 rC6 sC6 = sC6) ∧
    (sC6.powerup = none → (0:ℝ) > sC6.next_powerup_time →
      (spawnPhase 0 rC6 sC6).powerup = some (spawn_powerup rC6) ∧
      (spawn_powerup rC6).vx = (SCREEN_WIDTH / 2 - (spawn_powerup rC6).x) / 100 ∧
      (rC6.side = 0 → (spawn_powerup rC6).x = -POWERUP_SIZE) ∧
      (rC6.side = 1 → (spawn_powerup rC6).x = SCREEN_WIDTH + POWERUP_SIZE) ∧
      (rC6.side = 2 → (spawn_powerup rC6).y = -POWERUP_SIZE) ∧
      (rC6.side ≠ 0 → rC6.side ≠ 1 → rC6.side ≠ 2 →
        (spawn_powerup rC6).y = SCREEN_HEIGHT + POWERUP_SIZE)) ∧
    (∀ pu : PowerUp, sC6.powerup = some pu →
      ((pu.x + pu.vx < -POWERUP_SIZE * 2 ∨ pu.x + pu.vx > SCREEN_WIDTH + POWERUP_SIZE * 2) →
        (powerupMovePhase 0 rC6 sC6).powerup = none ∧
        (powerupMovePhase 0 rC6 sC6).next_powerup_time = 0 + rC6.miss_next ∧
        (0:ℝ) + 15 ≤ (powerupMovePhase 0 rC6 sC6).next_powerup_time ∧
        (powerupMovePhase 0 rC6 sC6).next_powerup_time < 0 + 30) ∧
      (¬(pu.x + pu.vx < -POWERUP_SIZE * 2 ∨ pu.x + pu.vx > SCREEN_WIDTH + POWERUP_SIZE * 2) →
        (powerupMovePhase 0 rC6 sC6).powerup = some { pu with x := pu.x + pu.vx } ∧
        (powerupMovePhase 0 rC6 sC6).next_powerup_time = sC6.next_powerup_time)) ∧
    (init_next_powerup_time 5 20 = 5 + 20 ∧
      (5:ℝ) + 15 ≤ init_next_powerup_time 5 20 ∧ init_next_powerup_time 5 20 < 5 + 30) :=
  powerup_lifecycle 0 rC6 sC6 5 20 (by norm_num) (by norm_num [rC6])

/-- C2 (amended): a steered projectile's new velocity is the old velocity
blended, by turn rate 0.3 (0.5 under the effect), toward the unit vector to
the target scaled by the effective speed of the weapon CURRENTLY SELECTED
(`self.weapons[self.current_weapon_index]`, not the projectile's owning
weapon), multiplied by 1.5 when the effect is active; the subsequent position
integration of the same tick uses the blended velocity. -/
theorem steering_blend (s : GameState) (p : Projectile) (t : Target)
    (ht : s.target = some t) (hst : t.is_straight = true)
    (hhom : p.is_homing = true ∨ s.powerup_active = true)
    (hdist : 0 < Real.sqrt ((t.x - p.x) * (t.x - p.x) + (t.y - p.y) * (t.y - p.y))) :
    ((steerProj s p).vx, (steerProj s p).vy) =
      blendVelocity p.vx p.vy
        (desired_velocity
          (if s.powerup_active then (weaponAt s.current_weapon_index).speed * 1.5
           else (weaponAt s.current_weapon_index).speed) (t.x - p.x) (t.y - p.y)).1
        (desired_velocity
          (if s.powerup_active then (weaponAt s.current_weapon_index).speed * 1.5
           else (weaponAt s.current_weapon_index).speed) (t.x - p.x) (t.y - p.y)).2
        (if s.powerup_active then 0.5 else 0.3) ∧
    (moveProj (steerProj s p)).x = p.x + (steerProj s p).vx ∧
    (moveProj (steerProj s p)).y = p.y + (steerProj s p).vy := by
  have hcond : ((p.is_homing || s.powerup_active) && t.is_straight) = true := by
    rw [hst, Bool.and_true]
    rcases hhom with h | h
    · rw [h, Bool.true_or]
    · rw [h, Bool.or_true]
  have e : steerProj s p =
      { p with
        vx := p.vx + ((t.x - p.x) / Real.sqrt ((t.x - p.x) * (t.x - p.x) + (t.y - p.y) * (t.y - p.y)) *
          (if s.powerup_active then (weaponAt s.current_weapon_index).speed * 1.5
           else (weaponAt s.current_weapon_index).speed) - p.vx) *
          (if s.powerup_active then 0.5 else 0.3),
        vy := p.vy + ((t.y - p.y) / Real.sqrt ((t.x - p.x) * (t.x - p.x) + (t.y - p.y) * (t.y - p.y)) *
          (if s.powerup_active then (weaponAt s.current_weapon_index).speed * 1.5
           else (weaponAt s.current_weapon_index).speed) - p.vy) *
          (if s.powerup_active then 0.5 else 0.3) } := by
    simp only [steerProj, ht]
    rw [if_pos hcond, if_pos hdist]
  refine ⟨?_, ?_, ?_⟩
  · rw [e]; simp [blendVelocity, desired_velocity]
  · rw [e]; simp [moveProj]
  · rw [e]; simp [moveProj]

/-- Witness for C2 at the 3-4-5 configuration `sC2`/`pC2`. -/
theorem steering_blend_witness :
    ((steerProj sC2 pC2).vx, (steerProj sC2 pC2).vy) =
      blendVelocity pC2.vx pC2.vy
        (desired_velocity
          (if sC2.powerup_active then (weaponAt sC2.current_weapon_index).speed * 1.5
           else (weaponAt sC2.current_weapon_index).speed) (tC2.x - pC2.x) (tC2.y - pC2.y)).1
        (desired_velocity
          (if sC2.powerup_active then (weaponAt sC2.current_weapon_index).speed * 1.5
           else (weaponAt sC2.current_weapon_index).speed) (tC2.x - pC2.x) (tC2.y - pC2.y)).2
        (if sC2.powerup_active then 0.5 else 0.3) ∧
    (moveProj (steerProj sC2 pC2)).x = pC2.x + (steerProj sC2 pC2).vx ∧
    (moveProj (steerProj sC2 pC2)).y = pC2.y + (steerProj sC2 pC2).vy :=
  steering_blend sC2 pC2 tC2 rfl rfl (Or.inl rfl)
    (by
      rw [show (tC2.x - pC2.x) * (tC2.x - pC2.x) + (tC2.y - pC2.y) * (tC2.y - pC2.y)
            = (25:ℝ) by norm_num [tC2, pC2]]
      rw [sqrt_eval (show (0:ℝ) ≤ 5 by norm_num) (show (5:ℝ) * 5 = 25 by norm_num)]
      norm_num)

/-- C2 counterexample: `pC2` is owned by the Trans Missile (index 10, speed
10) while the Slingshot (index 0, speed 15) is selected; after one steering
step the code's `vx` is `(3/5)·15·0.3 = 2.7`, where the claim's formula (the
owning weapon's speed) gives `(3/5)·10·0.3 = 1.8`. -/
theorem steering_blend_cex :
    (steerProj sC2 pC2).vx = 27 / 10 ∧
    pC2.vx + ((tC2.x - pC2.x) /
        Real.sqrt ((tC2.x - pC2.x) * (tC2.x - pC2.x) + (tC2.y - pC2.y) * (tC2.y - pC2.y)) *
        (weaponAt pC2.ammo_index).speed - pC2.vx) * 0.3 = 9 / 5 ∧
    (27:ℝ) / 10 ≠ 9 / 5 := by
  have h25 : (tC2.x - pC2.x) * (tC2.x - pC2.x) + (tC2.y - pC2.y) * (tC2.y - pC2.y) = (25:ℝ) := by
    norm_num [tC2, pC2]
  have h5 : Real.sqrt (25:ℝ) = 5 := sqrt_eval (by norm_num) (by norm_num)
  refine ⟨?_, ?_, by norm_num⟩
  · norm_num [steerProj, sC2, baseState, tC2, pC2, weaponAt, weapons, h5]
  · rw [h25, h5]
    norm_num [pC2, tC2, weaponAt, weapons]

/-- C3 (amended): a still-active projectile scores against the target exactly
when the distance between centers is strictly below `target.size +
PROJECTILE_SIZE / 2`, where `PROJECTILE_SIZE = 40` is the global constant —
the per-weapon `projectile_size` plays no role in this test; equality does
not score; a score deactivates the projectile and awards 1 point, or 3 when
the effect is active. -/
theorem target_collision (r : ProjRand) (s : GameState) (p : Projectile) (t : Target)
    (ht : s.target = some t) (_hactive : p.active = true) :
    (Real.sqrt ((p.x - t.x) * (p.x - t.x) + (p.y - t.y) * (p.y - t.y))
        < t.size + PROJECTILE_SIZE / 2 →
      (targetCollide r s p).1.score = s.score + (if s.powerup_active then 3 else 1) ∧
      (targetCollide r s p).2.active = false ∧
      (targetCollide r s p).1.target =
        some { t with x := r.rx, y := r.ry, vx := r.rvx, vy := r.rvy, is_straight := true }) ∧
    (¬(Real.sqrt ((p.x - t.x) * (p.x - t.x) + (p.y - t.y) * (p.y - t.y))
        < t.size + PROJECTILE_SIZE / 2) →
      targetCollide r s p = (s, p)) := by
  constructor
  · intro hhit
    have e : targetCollide r s p =
        ({ s with score := s.score + (if s.powerup_active then 3 else 1),
                  target := some { t with x := r.rx, y := r.ry, vx := r.rvx, vy := r.rvy,
                                          is_straight := true } },
         { p with active := false }) := by
      simp only [targetCollide, ht]
      rw [if_pos hhit]
    exact ⟨by rw [e], by rw [e], by rw [e]⟩
  · intro hmiss
    simp only [targetCollide, ht]
    rw [if_neg hmiss]

/-- Witness for C3: `pC3` sits 95 units from the target center, inside the
code's hit radius `80 + 20 = 100`. -/
theorem target_collision_witness :
    (Real.sqrt ((pC3.x - tBase.x) * (pC3.x - tBase.x) + (pC3.y - tBase.y) * (pC3.y - tBase.y))
        < tBase.size + PROJECTILE_SIZE / 2 →
      (targetCollide (rC6.proj 0) sC3 pC3).1.score
          = sC3.score + (if sC3.powerup_active then 3 else 1) ∧
      (targetCollide (rC6.proj 0) sC3 pC3).2.active = false ∧
      (targetCollide (rC6.proj 0) sC3 pC3).1.target =
        some { tBase with x := (rC6.proj 0).rx, y := (rC6.proj 0).ry,
                          vx := (rC6.proj 0).rvx, vy := (rC6.proj 0).rvy,
                          is_straight := true }) ∧
    (¬(Real.sqrt ((pC3.x - tBase.x) * (pC3.x - tBase.x) + (pC3.y - tBase.y) * (pC3.y - tBase.y))
        < tBase.size + PROJECTILE_SIZE / 2) →
      targetCollide (rC6.proj 0) sC3 pC3 = (sC3, pC3)) :=
  target_collision (rC6.proj 0) sC3 pC3 tBase rfl rfl

/-- C3 counterexample: the Darts projectile `pC3` (weapon hit size 15) is 95
units from the target center — outside the claim's radius `80 + 15/2 = 87.5`
— yet the code scores a point, because the test uses the global
`PROJECTILE_SIZE = 40`. -/
theorem target_collision_cex :
    (targetCollide (rC6.proj 0) sC3 pC3).1.score = 1 ∧
    ¬(Real.sqrt ((pC3.x - tBase.x) * (pC3.x - tBase.x) + (pC3.y - tBase.y) * (pC3.y - tBase.y))
        < tBase.size + (weaponAt pC3.ammo_index).projectile_size / 2) := by
  have h9025 : (pC3.x - tBase.x) * (pC3.x - tBase.x) + (pC3.y - tBase.y) * (pC3.y - tBase.y)
      = (9025:ℝ) := by norm_num [pC3, tBase]
  have h95 : Real.sqrt (9025:ℝ) = 95 := sqrt_eval (by norm_num) (by norm_num)
  constructor
  · norm_num [targetCollide, sC3, baseState, tBase, pC3, PROJECTILE_SIZE, h9025, h95]
  · rw [h9025, h95]
    norm_num [tBase, pC3, weaponAt, weapons]

/-- Deactivation is sticky through the power-up collision test. -/
theorem powerupCollide_keeps_inactive (now : ℝ) (r : ProjRand) (s : GameState)
    (p : Projectile) (h : p.active = false) :
    (powerupCollide now r s p).2.active = false := by
  rcases hp : s.powerup with _ | pu
  · simpa [powerupCollide, hp] using h
  · simp only [powerupCollide, hp]
    split_ifs <;> simp [h]

/-- Deactivation is sticky through the target collision test. -/
theorem targetCollide_keeps_inactive (r : ProjRand) (s : GameState)
    (p : Projectile) (h : p.active = false) :
    (targetCollide r s p).2.active = false := by
  rcases ht : s.target with _ | t
  · simpa [targetCollide, ht] using h
  · simp only [targetCollide, ht]
    split_ifs <;> simp [h]

/-- The projectile pass returns one processed projectile per input. -/
theorem runProjAux_length (now : ℝ) (rs : ℕ → ProjRand) :
    ∀ (ps : List Projectile) (i : ℕ) (s : GameState),
      (runProjAux now rs i s ps).2.length = ps.length := by
  intro ps
  induction ps with
  | nil => intro i s; rfl
  | cons p ps ih => intro i s; simp [runProjAux, ih]

/-- C1 (amended): a projectile whose position after integration is out of
bounds ends the tick deactivated, but the out-of-bounds check does NOT
short-circuit the collision tests: the same projectile still takes part in
the power-up and target tests of the same tick (so it can still score, and
can produce up to two events in one tick); a projectile deactivated this tick
is only dropped by the compaction at the start of the next tick's projectile
pass, which processes exactly the projectiles that entered it active. -/
theorem oob_projectile (now : ℝ) (r : ProjRand) (s : GameState) (p : Projectile)
    (t : Target) (ht : s.target = some t)
    (hoob : Projectile.oob (moveProj (steerProj s p))) :
    (stepProj now r s p).2.active = false ∧
    (s.powerup = none →
      Real.sqrt
          (((moveProj (steerProj s p)).x - t.x) * ((moveProj (steerProj s p)).x - t.x) +
            ((moveProj (steerProj s p)).y - t.y) * ((moveProj (steerProj s p)).y - t.y))
        < t.size + PROJECTILE_SIZE / 2 →
      (stepProj now r s p).1.score = s.score + (if s.powerup_active then 3 else 1)) ∧
    (∀ tr : TickRand, (projectilePhase now tr s).projectiles.length
        = (s.projectiles.filter fun q => q.active).length) := by
  set q : Projectile := moveProj (steerProj s p) with hq
  have hoob2 : q.x < 0 ∨ q.x > SCREEN_WIDTH ∨ q.y < 0 ∨ q.y > SCREEN_HEIGHT := hoob
  have hb : boundsDeactivate q = ⟨q.x, q.y, q.vx, q.vy, q.is_homing, q.ammo_index, false⟩ := by
    simp only [boundsDeactivate]
    rw [if_pos hoob2]
  have hstep : stepProj now r s p =
      targetCollide r (powerupCollide now r s (boundsDeactivate q)).1
        (powerupCollide now r s (boundsDeactivate q)).2 := rfl
  refine ⟨?_, ?_, ?_⟩
  · rw [hstep, hb]
    exact targetCollide_keeps_inactive _ _ _ (powerupCollide_keeps_inactive _ _ _ _ rfl)
  · intro hpu hdist
    have hpc : powerupCollide now r s
          (⟨q.x, q.y, q.vx, q.vy, q.is_homing, q.ammo_index, false⟩ : Projectile) =
        (s, ⟨q.x, q.y, q.vx, q.vy, q.is_homing, q.ammo_index, false⟩) := by
      simp [powerupCollide, hpu]
    have e : targetCollide r s
          (⟨q.x, q.y, q.vx, q.vy, q.is_homing, q.ammo_index, false⟩ : Projectile) =
        ({ s with score := s.score + (if s.powerup_active then 3 else 1),
                  target := some { t with x := r.rx, y := r.ry, vx := r.rvx, vy := r.rvy,
                                          is_straight := true } },
         ⟨q.x, q.y, q.vx, q.vy, q.is_homing, q.ammo_index, false⟩) := by
      simp only [targetCollide, ht]
      rw [if_pos hdist]
    simp only [hstep, hb, hpc, e]
  · intro tr
    simp only [projectilePhase]
    exact runProjAux_length _ _ _ _ _

/-- Witness for C1 at `sW1`/`pW1`: the projectile crosses the top edge while
95 units from the target, with no power-up present. -/
theorem oob_projectile_witness :
    (stepProj 0 (rC6.proj 0) sW1 pW1).2.active = false ∧
    (sW1.powerup = none →
      Real.sqrt
          (((moveProj (steerProj sW1 pW1)).x - tW1.x) * ((moveProj (steerProj sW1 pW1)).x - tW1.x) +
            ((moveProj (steerProj sW1 pW1)).y - tW1.y) * ((moveProj (steerProj sW1 pW1)).y - tW1.y))
        < tW1.size + PROJECTILE_SIZE / 2 →
      (stepProj 0 (rC6.proj 0) sW1 pW1).1.score
        = sW1.score + (if sW1.powerup_active then 3 else 1)) ∧
    (∀ tr : TickRand, (projectilePhase 0 tr sW1).projectiles.length
        = (sW1.projectiles.filter fun q => q.active).length) :=
  oob_projectile 0 (rC6.proj 0) sW1 pW1 tW1 rfl
    (by norm_num [Projectile.oob, steerProj, moveProj, sW1, baseState, tW1, pW1,
      SCREEN_WIDTH, SCREEN_HEIGHT])

/-- C1 counterexample: the projectile `pD1` ends its integration out of
bounds at `(1025, 300)`, yet the same tick still consumes the power-up
(first event) and scores against the target for 3 boosted points (second
event) — the out-of-bounds deactivation neither suppresses scoring nor
short-circuits the collision tests, and two events arise from one projectile
in one tick. -/
theorem oob_projectile_cex :
    Projectile.oob (moveProj (steerProj sD1 pD1)) ∧
    (stepProj 0 (rC6.proj 0) sD1 pD1).1.score = 3 ∧
    (stepProj 0 (rC6.proj 0) sD1 pD1).1.powerup = none ∧
    (stepProj 0 (rC6.proj 0) sD1 pD1).1.powerup_active = true := by
  have h50 : Real.sqrt (2500:ℝ) = 50 := sqrt_eval (by norm_num) (by norm_num)
  have h81 : Real.sqrt (6561:ℝ) = 81 := sqrt_eval (by norm_num) (by norm_num)
  refine ⟨?_, ?_, ?_, ?_⟩ <;>
    norm_num [Projectile.oob, stepProj, steerProj, moveProj, boundsDeactivate,
      powerupCollide, targetCollide, sD1, baseState, tD1, puD1, pD1, rC6,
      SCREEN_WIDTH, SCREEN_HEIGHT, POWERUP_SIZE, PROJECTILE_SIZE, h50, h81]

/-- Both endpoints of the source's clamp `max lo (min hi x)`. -/
theorem clamp_bounds (x : ℝ) {lo hi : ℝ} (h : lo ≤ hi) :
    lo ≤ max lo (min hi x) ∧ max lo (min hi x) ≤ hi :=
  ⟨le_max_left _ _, max_le h (min_le_left _ _)⟩

/-- The expiry check never touches the target. -/
theorem expiryPhase_target (now : ℝ) (s : GameState) :
    (expiryPhase now s).target = s.target := by
  simp only [expiryPhase]
  split_ifs <;> rfl

/-- The spawn check never touches the target. -/
theorem spawnPhase_target (now : ℝ) (r : TickRand) (s : GameState) :
    (spawnPhase now r s).target = s.target := by
  rcases hp : s.powerup with _ | pu
  · simp only [spawnPhase, hp]
    split_ifs <;> rfl
  · simp only [spawnPhase, hp]

/-- Power-up motion never touches the target. -/
theorem powerupMovePhase_target (now : ℝ) (r : TickRand) (s : GameState) :
    (powerupMovePhase now r s).target = s.target := by
  rcases hp : s.powerup with _ | pu
  · simp only [powerupMovePhase, hp]
  · simp only [powerupMovePhase, hp]
    split_ifs <;> rfl

/-- An evasion nudge changes only the position, never the size. -/
theorem evadeNudge_size (t : Target) (p : Projectile) : (evadeNudge t p).size = t.size := by
  simp only [evadeNudge]
  split_ifs <;> rfl

/-- The evasion fold preserves the size. -/
theorem foldl_evadeNudge_size (ps : List Projectile) :
    ∀ t : Target, (ps.foldl evadeNudge t).size = t.size := by
  induction ps with
  | nil => intro t; rfl
  | cons p ps ih => intro t; rw [List.foldl_cons, ih, evadeNudge_size]

/-- The target move phase yields the physics step of a target of the same
size (the evasion nudges change only the position). -/
theorem targetMovePhase_target (s : GameState) (t : Target) (ht : s.target = some t) :
    ∃ t1 : Target, (targetMovePhase s).target = some (targetPhysics t1) ∧ t1.size = t.size := by
  rcases he : s.selected_enemy with _ | e
  · exact ⟨t, by simp only [targetMovePhase, ht, he], rfl⟩
  · by_cases hev : e.evasion_pattern = "evade"
    · refine ⟨s.projectiles.foldl evadeNudge t, ?_, foldl_evadeNudge_size _ _⟩
      simp only [targetMovePhase, ht, he]
      rw [if_pos hev]
    · refine ⟨t, ?_, rfl⟩
      simp only [targetMovePhase, ht, he]
      rw [if_neg hev]

/-- After integration and wall bounce the target's bounding circle lies
inside the play field, whatever the entering position, whenever its diameter
fits the field; the size is untouched. -/
theorem targetPhysics_inBounds (t : Target)
    (hW : t.size ≤ SCREEN_WIDTH - t.size) (hH : t.size ≤ SCREEN_HEIGHT - t.size) :
    Target.inBounds (targetPhysics t) ∧ (targetPhysics t).size = t.size := by
  obtain ⟨hx1, hx2⟩ := clamp_bounds (t.x + t.vx) hW
  obtain ⟨hy1, hy2⟩ := clamp_bounds (t.y + t.vy) hH
  by_cases h1 : t.x + t.vx - t.size < 0 ∨ t.x + t.vx + t.size > SCREEN_WIDTH
  · by_cases h2 : t.y + t.vy - t.size < 0 ∨ t.y + t.vy + t.size > SCREEN_HEIGHT
    · have e : targetPhysics t =
          { t with x := max t.size (min (SCREEN_WIDTH - t.size) (t.x + t.vx)),
                   y := max t.size (min (SCREEN_HEIGHT - t.size) (t.y + t.vy)),
                   vx := -t.vx, vy := -t.vy } := by
        simp only [targetPhysics]
        rw [if_pos h1, if_pos h2]
      rw [e]
      exact ⟨⟨by simp only; linarith, by simp only; linarith,
              by simp only; linarith, by simp only; linarith⟩, rfl⟩
    · have e : targetPhysics t =
          { t with x := max t.size (min (SCREEN_WIDTH - t.size) (t.x + t.vx)),
                   y := t.y + t.vy, vx := -t.vx } := by
        simp only [targetPhysics]
        rw [if_pos h1, if_neg h2]
      rw [e]
      push_neg at h2
      exact ⟨⟨by simp only; linarith, by simp only; linarith,
              by simp only; linarith [h2.1], by simp only; linarith [h2.2]⟩, rfl⟩
  · by_cases h2 : t.y + t.vy - t.size < 0 ∨ t.y + t.vy + t.size > SCREEN_HEIGHT
    · have e : targetPhysics t =
          { t with x := t.x + t.vx,
                   y := max t.size (min (SCREEN_HEIGHT - t.size) (t.y + t.vy)),
                   vy := -t.vy } := by
        simp only [targetPhysics]
        rw [if_neg h1, if_pos h2]
      rw [e]
      push_neg at h1
      exact ⟨⟨by simp only; linarith [h1.1], by simp only; linarith [h1.2],
              by simp only; linarith, by simp only; linarith⟩, rfl⟩
    · have e : targetPhysics t = { t with x := t.x + t.vx, y := t.y + t.vy } := by
        simp only [targetPhysics]
        rw [if_neg h1, if_neg h2]
      rw [e]
      push_neg at h1 h2
      exact ⟨⟨by simp only; linarith [h1.1], by simp only; linarith [h1.2],
              by simp only; linarith [h2.1], by simp only; linarith [h2.2]⟩, rfl⟩

/-- The power-up collision test never touches the target. -/
theorem powerupCollide_preserves_target (now : ℝ) (r : ProjRand) (s : GameState)
    (p : Projectile) : (powerupCollide now r s p).1.target = s.target := by
  rcases hp : s.powerup with _ | pu
  · simp only [powerupCollide, hp]
  · simp only [powerupCollide, hp]
    split_ifs <;> rfl

/-- One projectile step keeps the target in bounds and keeps its size, given
respawn draws from the source's support. -/
theorem stepProj_target_invariant (now : ℝ) (r : ProjRand) (s : GameState)
    (p : Projectile) (t : Target) (ht : s.target = some t)
    (hin : Target.inBounds t) (hsmall : t.size ≤ 100)
    (hr : ProjRand.respawnInRange r) :
    ∃ t', (stepProj now r s p).1.target = some t' ∧
      Target.inBounds t' ∧ t'.size = t.size := by
  obtain ⟨ha, hb, hc, hd⟩ := hr
  set s1 := (powerupCollide now r s (boundsDeactivate (moveProj (steerProj s p)))).1 with hs1
  set p1 := (powerupCollide now r s (boundsDeactivate (moveProj (steerProj s p)))).2 with hp1
  have h1 : s1.target = some t := by
    rw [hs1, powerupCollide_preserves_target, ht]
  have hstep : stepProj now r s p = targetCollide r s1 p1 := rfl
  rw [hstep]
  by_cases hhit : Real.sqrt ((p1.x - t.x) * (p1.x - t.x) + (p1.y - t.y) * (p1.y - t.y))
      < t.size + PROJECTILE_SIZE / 2
  · refine ⟨⟨r.rx, r.ry, r.rvx, r.rvy, t.size, true⟩, ?_, ?_, rfl⟩
    · simp only [targetCollide, h1]
      rw [if_pos hhit]
    · simp only [Target.inBounds]
      refine ⟨?_, ?_, ?_, ?_⟩ <;> linarith
  · have e : targetCollide r s1 p1 = (s1, p1) := by
      simp only [targetCollide, h1]
      rw [if_neg hhit]
    rw [e]
    exact ⟨t, h1, hin, rfl⟩

/-- The whole projectile pass keeps the target in bounds and keeps its size. -/
theorem runProjAux_target_invariant (now : ℝ) (rs : ℕ → ProjRand)
    (hr : ∀ j, ProjRand.respawnInRange (rs j)) :
    ∀ (ps : List Projectile) (i : ℕ) (s : GameState) (t : Target),
      s.target = some t → Target.inBounds t → t.size ≤ 100 →
      ∃ t', (runProjAux now rs i s ps).1.target = some t' ∧
        Target.inBounds t' ∧ t'.size = t.size := by
  intro ps
  induction ps with
  | nil => intro i s t ht hin hsm; exact ⟨t, ht, hin, rfl⟩
  | cons p ps ih =>
      intro i s t ht hin hsm
      obtain ⟨t1, ht1, hin1, hsz1⟩ := stepProj_target_invariant now (rs i) s p t ht hin hsm (hr i)
      obtain ⟨t2, ht2, hin2, hsz2⟩ :=
        ih (i + 1) (stepProj now (rs i) s p).1 t1 ht1 hin1 (by rw [hsz1]; exact hsm)
      refine ⟨t2, ?_, hin2, by rw [hsz2, hsz1]⟩
      simpa only [runProjAux] using ht2

/-- C4 (amended): for any state whose target has radius at most 100 (so in
particular for the seven archetypes of size ≤ 100, but NOT for the Tank of
size 120), a full tick keeps the target's bounding circle inside the play
field — the wall bounce re-establishes it and a scoring respawn, drawn from
`[100, W-100] × [100, H-100]`, preserves it exactly because the draw margin
covers the radius — and the target's size is never changed by a tick. -/
theorem target_bounds (now : ℝ) (r : TickRand) (s : GameState) (t : Target)
    (ht : s.target = some t) (hsmall : t.size ≤ 100)
    (hr : ∀ j, ProjRand.respawnInRange (r.proj j)) :
    ∃ t', (update now r s).target = some t' ∧ Target.inBounds t' ∧ t'.size = t.size := by
  have hW : t.size ≤ SCREEN_WIDTH - t.size := by simp only [SCREEN_WIDTH]; linarith
  have hH : t.size ≤ SCREEN_HEIGHT - t.size := by simp only [SCREEN_HEIGHT]; linarith
  set s3 := powerupMovePhase now r (spawnPhase now r (expiryPhase now s)) with hs3
  have ht3 : s3.target = some t := by
    rw [hs3, powerupMovePhase_target, spawnPhase_target, expiryPhase_target, ht]
  obtain ⟨t1, ht4, hsz1⟩ := targetMovePhase_target s3 t ht3
  have hW1 : t1.size ≤ SCREEN_WIDTH - t1.size := by rw [hsz1]; exact hW
  have hH1 : t1.size ≤ SCREEN_HEIGHT - t1.size := by rw [hsz1]; exact hH
  obtain ⟨hinP, hszP⟩ := targetPhysics_inBounds t1 hW1 hH1
  obtain ⟨t2, ht5, hin2, hsz2⟩ := runProjAux_target_invariant now r.proj hr
    ((targetMovePhase s3).projectiles.filter fun q => q.active) 0 (targetMovePhase s3)
    (targetPhysics t1) ht4 hinP (by rw [hszP, hsz1]; exact hsmall)
  refine ⟨t2, ?_, hin2, by rw [hsz2, hszP, hsz1]⟩
  show (projectilePhase now r (targetMovePhase s3)).target = some t2
  simp only [projectilePhase]
  exact ht5

/-- Witness for C4 on a Standard session (radius 80) with in-range draws. -/
theorem target_bounds_witness :
    ∃ t', (update 0 rD4 baseState).target = some t' ∧
      Target.inBounds t' ∧ t'.size = tBase.size :=
  target_bounds 0 rD4 baseState tBase rfl (by norm_num [tBase])
    (fun j => by norm_num [rD4, ProjRand.respawnInRange, SCREEN_WIDTH, SCREEN_HEIGHT])

/-- Evaluation of the tick in which the Tank session `sD4` scores a hit:
the respawn draws land at `(100, 400)` with velocity `(0, 3)`. -/
theorem update_tank_hit_eval :
    update 0 rD4 sD4 =
      { current_weapon_index := 0,
        projectiles := [⟨500, 300, 0, 0, false, 0, false⟩],
        target := some ⟨100, 400, 0, 3, 120, true⟩, powerup := none, score := 1,
        powerup_active := false, powerup_end_time := 0, next_powerup_time := 1000,
        weapon_x := 512, selected_enemy := some enemyTank } := by
  have hs100 : Real.sqrt (10000:ℝ) = 100 := sqrt_eval (by norm_num) (by norm_num)
  have hho : ("horizontal" = "evade") = False := eq_false (by decide)
  norm_num [update, expiryPhase, spawnPhase, powerupMovePhase, targetMovePhase,
    targetPhysics, projectilePhase, runProjAux, stepProj, steerProj, moveProj,
    boundsDeactivate, powerupCollide, targetCollide, sD4, baseState, tBase, tD4,
    pD4, rD4, enemyTank, SCREEN_WIDTH, SCREEN_HEIGHT, POWERUP_SIZE,
    PROJECTILE_SIZE, hs100, hho, List.filter]

/-- C4 counterexample: in the Tank session (radius 120) a scoring respawn
draws `x = 100` — inside the source's draw support `[100, 924]` — and the
post-tick target's bounding circle sticks 20 units out of the left edge. -/
theorem target_bounds_cex :
    (update 0 rD4 sD4).target = some ⟨100, 400, 0, 3, 120, true⟩ ∧
    ¬ Target.inBounds ⟨100, 400, 0, 3, 120, true⟩ ∧
    ProjRand.respawnInRange (rD4.proj 0) := by
  refine ⟨by rw [update_tank_hit_eval], ?_, ?_⟩
  · intro h
    obtain ⟨h1, -⟩ := h
    norm_num at h1
  · norm_num [rD4, ProjRand.respawnInRange, SCREEN_WIDTH, SCREEN_HEIGHT]

/-- C5 (amended): the axis lock holds at every `reset_target` spawn — pattern
`horizontal` forces `vy = 0`, pattern `vertical` forces `vx = 0` — but the
scoring respawn inside the collision block randomizes BOTH velocity
components without consulting the pattern, so after the first scoring hit an
axis-locked target may move on the locked axis. -/
theorem axis_lock (e : Enemy) (rr : ResetRand) (r : ProjRand) (s : GameState)
    (p : Projectile) (t : Target) (ht : s.target = some t)
    (hhit : Real.sqrt ((p.x - t.x) * (p.x - t.x) + (p.y - t.y) * (p.y - t.y))
      < t.size + PROJECTILE_SIZE / 2) :
    (e.evasion_pattern = "horizontal" → (reset_target e rr).vy = 0) ∧
    (e.evasion_pattern = "vertical" → (reset_target e rr).vx = 0) ∧
    (targetCollide r s p).1.target =
      some { t with x := r.rx, y := r.ry, vx := r.rvx, vy := r.rvy,
                    is_straight := true } := by
  refine ⟨?_, ?_, ?_⟩
  · intro hh
    simp [reset_target, hh]
  · intro hv
    simp [reset_target, hv]
  · simp only [targetCollide, ht]
    rw [if_pos hhit]

/-- Witness for C5 with the Tank archetype and the hit of `pD4` on `tD4`. -/
theorem axis_lock_witness :
    (enemyTank.evasion_pattern = "horizontal" → (reset_target enemyTank rrC5).vy = 0) ∧
    (enemyTank.evasion_pattern = "vertical" → (reset_target enemyTank rrC5).vx = 0) ∧
    (targetCollide (rD4.proj 0) sD4 pD4).1.target =
      some { tD4 with x := (rD4.proj 0).rx, y := (rD4.proj 0).ry,
                      vx := (rD4.proj 0).rvx, vy := (rD4.proj 0).rvy,
                      is_straight := true } :=
  axis_lock enemyTank rrC5 (rD4.proj 0) sD4 pD4 tD4 rfl
    (by
      rw [show (pD4.x - tD4.x) * (pD4.x - tD4.x) + (pD4.y - tD4.y) * (pD4.y - tD4.y)
            = (10000:ℝ) by norm_num [pD4, tD4]]
      rw [sqrt_eval (show (0:ℝ) ≤ 100 by norm_num) (show (100:ℝ) * 100 = 10000 by norm_num)]
      norm_num [tD4, PROJECTILE_SIZE])

/-- C5 counterexample: the Tank session (pattern `horizontal`, target
`vy = 0`) scores a hit and the respawned target carries `vy = 3 ≠ 0`. -/
theorem axis_lock_cex :
    enemyTank.evasion_pattern = "horizontal" ∧
    sD4.selected_enemy = some enemyTank ∧ tD4.vy = 0 ∧
    (update 0 rD4 sD4).target = some ⟨100, 400, 0, 3, 120, true⟩ ∧ (3:ℝ) ≠ 0 :=
  ⟨rfl, rfl, rfl, by rw [update_tank_hit_eval], by norm_num⟩

end Gamev4
